import Mathlib

/-!
Shallow embedding of the `tax-mux/ldap` directory-access layer
(`src/ldap.mjs`, `src/index.mjs`, `src/unnamed/part_000`).

The ldapjs client is modelled as a bundle of response functions, one per wire
operation (search / modify / add / del / modifyDN / rename).  Every embedded
operation returns its settled promise value together with the ordered list of
wire calls it issued, so that claims about "no wire call is issued" and about
the propagated errors can be stated directly.  A search response is a stream
of events (`searchEntry` / `end` / `error`) exactly as the source consumes it;
a search promise that never receives a terminal event stays pending, which the
embedding renders as `none`.
-/

namespace Ldap

/-- An ldapjs attribute object: a type name and its list of string values. -/
structure Attr where
  type : String
  values : List String
deriving DecidableEq

/-- Errors observable from the embedded operations.  `serverError` is a
server-reported diagnostic (LDAP result code plus message) handed to a wire
callback; `clientNotDefined` is the `new Error('client is not defined')`
thrown by the explicit null-client guards; `typeError` is the JavaScript
`TypeError` raised when a method is invoked on a null client (functions with
no guard); `wrapped` is `new Error(err)` re-raising an underlying error;
`invalidMove` is the spec's `InvalidMoveError`. -/
inductive Err where
  | serverError (code : Nat) (diag : String)
  | clientNotDefined
  | typeError (msg : String)
  | wrapped (e : Err)
  | invalidMove
deriving DecidableEq

deriving instance DecidableEq for Except

/-- An `ldap.Change` payload as built by `getChange`: the operation tag is the
string passed through (`replace` / `add` / `delete`) and the modification is a
single attribute. -/
structure Change where
  operation : String
  modification : Attr
deriving DecidableEq

/-- The attribute object handed to `client.add` (a JSON-like record). -/
abbrev EntryRecord := List (String × List String)

/-- One wire call against the directory, as issued by the client methods the
source invokes. -/
inductive WireCall where
  | search (base fil scope : String)
  | modify (dn : String) (ch : Change)
  | add (dn : String) (entry : EntryRecord)
  | del (dn : String)
  | modifyDN (oldDn newRdn newParent : String)
  | rename (oldDn newDn : String)
deriving DecidableEq

/-- Events delivered on a search result emitter: `entry` carries
`entry.attributes`, `ended` is the `end` signal, `errored` the `error`
signal. -/
inductive SearchEvent where
  | entry (attrs : List Attr)
  | ended
  | errored (e : Err)
deriving DecidableEq

/-- Server behaviour for one search: either the search callback itself
receives an error, or a stream of events is delivered on the result
emitter. -/
inductive SearchResponse where
  | immediateErr (e : Err)
  | events (evs : List SearchEvent)

/-- The external ldapjs client, modelled by the responses the server gives to
each wire call. -/
structure Client where
  searchResp : String → String → String → SearchResponse
  modifyResp : String → Change → Option Err
  addResp : String → EntryRecord → Option Err
  delResp : String → Option Err
  modifyDNResp : String → String → String → Option Err
  renameResp : String → String → Option Err

/-- The `TypeError` surfaced when a method is called on a null client. -/
def nullClientCrash : Err := Err.typeError "cannot read properties of null"

/-- Processing of the event stream by `queryLdap`'s handlers: entries are
pushed in delivery order, the first `end` resolves with everything collected
so far, the first `error` rejects; with no terminal event the promise stays
pending (`none`). -/
def collectEvents : List SearchEvent → List (List Attr) →
    Option (Except Err (List (List Attr)))
  | [], _ => none
  | SearchEvent.entry a :: rest, acc => collectEvents rest (acc ++ [a])
  | SearchEvent.ended :: _, acc => some (Except.ok acc)
  | SearchEvent.errored e :: _, _ => some (Except.error e)

/-- `queryLdap(client, searchBase, searchFilter)` — src/ldap.mjs lines 40-73.
Throws `Error('client is not defined')` on a null client, otherwise issues one
`client.search` with scope `sub`, collecting `entry.attributes` per
`searchEntry`, resolving on `end`, rejecting on `error` (or on an error given
to the search callback itself). -/
def queryLdap (client : Option Client) (searchBase searchFilter : String) :
    Option (Except Err (List (List Attr))) × List WireCall :=
  match client with
  | none => (some (Except.error Err.clientNotDefined), [])
  | some c =>
    match c.searchResp searchBase searchFilter "sub" with
    | SearchResponse.immediateErr e =>
        (some (Except.error e), [WireCall.search searchBase searchFilter "sub"])
    | SearchResponse.events evs =>
        (collectEvents evs [], [WireCall.search searchBase searchFilter "sub"])

/-- `changeLdapAttribute(client, dn, change)` — src/ldap.mjs lines 81-96.
Null-client guard, then one `client.modify`; the callback error, if any, is
the rejection value. -/
def changeLdapAttribute (client : Option Client) (dn : String) (ch : Change) :
    Except Err Unit × List WireCall :=
  match client with
  | none => (Except.error Err.clientNotDefined, [])
  | some c =>
    match c.modifyResp dn ch with
    | some e => (Except.error e, [WireCall.modify dn ch])
    | none => (Except.ok (), [WireCall.modify dn ch])

/-- `getChange(operation, attributeName, attributeValues)` — src/ldap.mjs
lines 143-152: builds the `ldap.Change` payload. -/
def getChange (operation attributeName : String) (attributeValues : List String) :
    Change :=
  { operation := operation
    modification := { type := attributeName, values := attributeValues } }

/-- `setLdapAttribute` — src/ldap.mjs lines 106-109: a `replace` change. -/
def setLdapAttribute (client : Option Client) (dn attributeName : String)
    (attributeValues : List String) : Except Err Unit × List WireCall :=
  changeLdapAttribute client dn (getChange "replace" attributeName attributeValues)

/-- `addLdapAttribute` — src/ldap.mjs lines 119-122: an `add` change. -/
def addLdapAttribute (client : Option Client) (dn attributeName : String)
    (attributeValues : List String) : Except Err Unit × List WireCall :=
  changeLdapAttribute client dn (getChange "add" attributeName attributeValues)

/-- `removeLdapAttribute` — src/ldap.mjs lines 131-134: a `delete` change with
an empty value list (the function takes no values argument). -/
def removeLdapAttribute (client : Option Client) (dn attributeName : String) :
    Except Err Unit × List WireCall :=
  changeLdapAttribute client dn (getChange "delete" attributeName [])

/-- `addLdapEntry(client, dn, entry)` — src/ldap.mjs lines 161-171.  No
null-client guard and no existence check: one unconditional `client.add`; a
null client crashes with a `TypeError` inside the executor, which rejects the
promise. -/
def addLdapEntry (client : Option Client) (dn : String) (entry : EntryRecord) :
    Except Err Unit × List WireCall :=
  match client with
  | none => (Except.error nullClientCrash, [])
  | some c =>
    match c.addResp dn entry with
    | some e => (Except.error e, [WireCall.add dn entry])
    | none => (Except.ok (), [WireCall.add dn entry])

/-- `removeLdapEntry(client, dn)` — src/ldap.mjs lines 179-189.  No guard, no
existence check: one unconditional `client.del`. -/
def removeLdapEntry (client : Option Client) (dn : String) :
    Except Err Unit × List WireCall :=
  match client with
  | none => (Except.error nullClientCrash, [])
  | some c =>
    match c.delResp dn with
    | some e => (Except.error e, [WireCall.del dn])
    | none => (Except.ok (), [WireCall.del dn])

/-- `modifyLdapDn(client, oldDn, newRdn, newParent)` — src/ldap.mjs lines
199-209.  No guard: one unconditional `client.modifyDN`. -/
def modifyLdapDn (client : Option Client) (oldDn newRdn newParent : String) :
    Except Err Unit × List WireCall :=
  match client with
  | none => (Except.error nullClientCrash, [])
  | some c =>
    match c.modifyDNResp oldDn newRdn newParent with
    | some e => (Except.error e, [WireCall.modifyDN oldDn newRdn newParent])
    | none => (Except.ok (), [WireCall.modifyDN oldDn newRdn newParent])

/-- Modelled from the spec: `moveLdapEntry` is invoked by `index.mjs` (line
61) and by the third revision in `src/ldap.mjs`, but is defined nowhere under
`src/`.  Per spec §4.3 and §7: the precondition is that an entry exists at
`oldDn` and the destination-existence check on `newDn` is false; when it
holds, the rename wire call is issued (a server-side error on it propagates);
in every other case the operation fails with `InvalidMoveError` and performs
no rename call.  `dirExists` is the existence state observed through the
Query Engine; a missing session handle fails fast per §7. -/
def moveLdapEntry (client : Option Client) (dirExists : String → Bool)
    (oldDn newDn : String) : Except Err Unit × List WireCall :=
  match client with
  | none => (Except.error Err.clientNotDefined, [])
  | some c =>
    if dirExists oldDn && !dirExists newDn then
      match c.renameResp oldDn newDn with
      | some e => (Except.error e, [WireCall.rename oldDn newDn])
      | none => (Except.ok (), [WireCall.rename oldDn newDn])
    else (Except.error Err.invalidMove, [])

/-- `openLdap(url, bind_dn, password)` — src/ldap.mjs lines 13-21.  Creates
the client via the external factory, starts an asynchronous bind whose
callback throws `new Error(err)` on failure, and returns the client
immediately: the first component is the settled value of the promise returned
by `openLdap`, the second is the exception (if any) raised later inside the
bind callback, uncaught and detached from that promise. -/
def openLdap (mkClient : String → Client) (url bind_dn password : String)
    (bindErr : Option Err) : Except Err Client × Option Err :=
  (Except.ok (mkClient url), bindErr.map Err.wrapped)

/-- The directory server's application of an attribute `Change` to an entry's
attribute record, per the external `modify` interface (spec §3 and §6):
`replace` overwrites all values of the named attribute, `add` appends the
supplied values to those already present, `delete` removes the attribute
entirely, ignoring any supplied values; an unknown tag changes nothing. -/
def applyChange (attrs : EntryRecord) (ch : Change) : EntryRecord :=
  let name := ch.modification.type
  match ch.operation with
  | "replace" =>
      (attrs.filter (fun p => p.fst != name)) ++ [(name, ch.modification.values)]
  | "add" =>
      match attrs.lookup name with
      | some vs =>
          (attrs.filter (fun p => p.fst != name)) ++ [(name, vs ++ ch.modification.values)]
      | none => attrs ++ [(name, ch.modification.values)]
  | "delete" => attrs.filter (fun p => p.fst != name)
  | _ => attrs

/-- Is a wire call a search (read-only query)? -/
def isSearchCall : WireCall → Bool
  | WireCall.search _ _ _ => true
  | _ => false

/-- A concrete client whose server accepts every mutation and reports an
empty directory on every search. -/
def okClient : Client where
  searchResp := fun _ _ _ => SearchResponse.events [SearchEvent.ended]
  modifyResp := fun _ _ => none
  addResp := fun _ _ => none
  delResp := fun _ => none
  modifyDNResp := fun _ _ _ => none
  renameResp := fun _ _ => none

/-- A concrete client whose server answers every call with the given
error. -/
def errClient (e : Err) : Client where
  searchResp := fun _ _ _ => SearchResponse.events [SearchEvent.errored e]
  modifyResp := fun _ _ => some e
  addResp := fun _ _ => some e
  delResp := fun _ => some e
  modifyDNResp := fun _ _ _ => some e
  renameResp := fun _ _ => some e

end Ldap

namespace Ldap

/-- Entry events are accumulated in delivery order before any terminal
event is processed. -/
theorem collectEvents_entries (entries : List (List Attr)) (rest : List SearchEvent)
    (acc : List (List Attr)) :
    collectEvents (entries.map SearchEvent.entry ++ rest) acc
      = collectEvents rest (acc ++ entries) := by
  induction entries generalizing acc with
  | nil => simp
  | cons a t ih =>
      simp only [List.map_cons, List.cons_append, collectEvents, List.append_eq]
      rw [ih, List.append_assoc, List.singleton_append]

/-- Filtering out every pair keyed by `name` leaves nothing for `lookup` to
find at `name`. -/
theorem lookup_filter_ne (l : EntryRecord) (name : String) :
    (l.filter (fun p => p.fst != name)).lookup name = none := by
  induction l with
  | nil => rfl
  | cons p t ih =>
      by_cases h : p.fst = name
      · simp [List.filter_cons, h, ih]
      · have hne : (name == p.fst) = false := beq_eq_false_iff_ne.mpr (Ne.symm h)
        simp [List.filter_cons, List.lookup, h, hne, ih]

/-- After scrubbing `name` and appending a fresh binding for it, `lookup`
finds exactly that binding. -/
theorem lookup_filter_ne_append (l : EntryRecord) (name : String) (vs : List String) :
    ((l.filter (fun p => p.fst != name)) ++ [(name, vs)]).lookup name = some vs := by
  induction l with
  | nil => simp [List.lookup]
  | cons p t ih =>
      by_cases h : p.fst = name
      · simpa [List.filter_cons, h] using ih
      · have hne : (name == p.fst) = false := beq_eq_false_iff_ne.mpr (Ne.symm h)
        simp [List.filter_cons, List.lookup, h, hne, ih]

/-- `changeLdapAttribute` on a live client issues exactly one wire modify,
whatever the server answers. -/
theorem changeLdapAttribute_snd (c : Client) (dn : String) (ch : Change) :
    (changeLdapAttribute (some c) dn ch).snd = [WireCall.modify dn ch] := by
  cases h : c.modifyResp dn ch <;> simp [changeLdapAttribute, h]

/-- `addLdapEntry` on a live client issues exactly one wire add. -/
theorem addLdapEntry_snd (c : Client) (dn : String) (entry : EntryRecord) :
    (addLdapEntry (some c) dn entry).snd = [WireCall.add dn entry] := by
  cases h : c.addResp dn entry <;> simp [addLdapEntry, h]

/-- `removeLdapEntry` on a live client issues exactly one wire delete. -/
theorem removeLdapEntry_snd (c : Client) (dn : String) :
    (removeLdapEntry (some c) dn).snd = [WireCall.del dn] := by
  cases h : c.delResp dn <;> simp [removeLdapEntry, h]

/-- `modifyLdapDn` on a live client issues exactly one wire modifyDN. -/
theorem modifyLdapDn_snd (c : Client) (oldDn newRdn newParent : String) :
    (modifyLdapDn (some c) oldDn newRdn newParent).snd
      = [WireCall.modifyDN oldDn newRdn newParent] := by
  cases h : c.modifyDNResp oldDn newRdn newParent <;> simp [modifyLdapDn, h]

end Ldap

namespace Ldap

/-- C1 counterexample: at a DN where an entry already exists (the server
answers the add with its entryAlreadyExists diagnostic), `addLdapEntry` still
issues the wire add call — its trace is nonempty — and the rejection is the
server's own error, produced after the call, not an `AlreadyExistsError`
raised by the mutator before it.  So the claim that `addEntry` fails from its
own pre-check and issues no wire add call is false on the code. -/
theorem c1_counterexample :
    (addLdapEntry (some (errClient (Err.serverError 68 "entryAlreadyExists")))
        "uid=t1,dc=example,dc=com" [("cn", ["t1"])]).snd ≠ []
    ∧ addLdapEntry (some (errClient (Err.serverError 68 "entryAlreadyExists")))
        "uid=t1,dc=example,dc=com" [("cn", ["t1"])]
      = (Except.error (Err.serverError 68 "entryAlreadyExists"),
         [WireCall.add "uid=t1,dc=example,dc=com" [("cn", ["t1"])]]) := by
  exact ⟨by decide, rfl⟩

/-- C1 (amended): `addLdapEntry` performs no existence pre-check of its own:
for every client it issues exactly one wire add call, and when the server
reports an error — in particular because an entry already exists at the DN —
the promise rejects with that server error itself. -/
theorem c1_add_is_unguarded (c : Client) (dn : String) (entry : EntryRecord)
    (e : Err) (h : c.addResp dn entry = some e) :
    addLdapEntry (some c) dn entry = (Except.error e, [WireCall.add dn entry]) := by
  simp [addLdapEntry, h]

/-- C1 witness at a concrete occupied DN. -/
theorem c1_add_is_unguarded_witness :
    (errClient (Err.serverError 68 "exists")).addResp "uid=w" [] =
        some (Err.serverError 68 "exists")
    ∧ addLdapEntry (some (errClient (Err.serverError 68 "exists"))) "uid=w" []
      = (Except.error (Err.serverError 68 "exists"), [WireCall.add "uid=w" []]) :=
  ⟨rfl, c1_add_is_unguarded (errClient (Err.serverError 68 "exists")) "uid=w" []
      (Err.serverError 68 "exists") rfl⟩

/-- C2 counterexample: at a DN where no entry exists (the server answers both
the delete and the modify with its noSuchObject diagnostic), `removeLdapEntry`
and `removeLdapAttribute` both issue their wire mutation — the trace is
nonempty — and both reject with the server error instead of resolving.  So
the claim that they resolve without error and without any wire mutation call
is false on the code. -/
theorem c2_counterexample :
    (removeLdapEntry (some (errClient (Err.serverError 32 "noSuchObject")))
        "uid=gone").snd ≠ []
    ∧ removeLdapEntry (some (errClient (Err.serverError 32 "noSuchObject"))) "uid=gone"
      = (Except.error (Err.serverError 32 "noSuchObject"), [WireCall.del "uid=gone"])
    ∧ removeLdapAttribute (some (errClient (Err.serverError 32 "noSuchObject")))
        "uid=gone" "mail"
      = (Except.error (Err.serverError 32 "noSuchObject"),
         [WireCall.modify "uid=gone" (getChange "delete" "mail" [])]) := by
  exact ⟨by decide, rfl, rfl⟩

/-- C2 (amended): `removeLdapEntry` and `removeLdapAttribute` are not
idempotent no-ops on an absent DN: each issues its wire mutation
unconditionally, and a server-reported error for the absent DN is propagated
as a rejection. -/
theorem c2_remove_is_unguarded (c : Client) (dn attributeName : String) (e e2 : Err)
    (h1 : c.delResp dn = some e)
    (h2 : c.modifyResp dn (getChange "delete" attributeName []) = some e2) :
    removeLdapEntry (some c) dn = (Except.error e, [WireCall.del dn])
    ∧ removeLdapAttribute (some c) dn attributeName
      = (Except.error e2, [WireCall.modify dn (getChange "delete" attributeName [])]) := by
  constructor
  · simp [removeLdapEntry, h1]
  · simp [removeLdapAttribute, changeLdapAttribute, h2]

/-- C2 witness at a concrete absent DN. -/
theorem c2_remove_is_unguarded_witness :
    (errClient (Err.serverError 32 "gone")).delResp "uid=n" =
        some (Err.serverError 32 "gone")
    ∧ (errClient (Err.serverError 32 "gone")).modifyResp "uid=n"
        (getChange "delete" "mail" []) = some (Err.serverError 32 "gone")
    ∧ (removeLdapEntry (some (errClient (Err.serverError 32 "gone"))) "uid=n"
        = (Except.error (Err.serverError 32 "gone"), [WireCall.del "uid=n"])
      ∧ removeLdapAttribute (some (errClient (Err.serverError 32 "gone"))) "uid=n" "mail"
        = (Except.error (Err.serverError 32 "gone"),
           [WireCall.modify "uid=n" (getChange "delete" "mail" [])])) :=
  ⟨rfl, rfl, c2_remove_is_unguarded (errClient (Err.serverError 32 "gone")) "uid=n"
      "mail" (Err.serverError 32 "gone") (Err.serverError 32 "gone") rfl rfl⟩

/-- C3: for the spec-modelled `moveLdapEntry` (absent from src, see its doc
comment), over a client whose rename call does not itself fail: the move
succeeds if and only if an entry exists at `oldDn` and the
destination-existence check on `newDn` is false; in every other case it fails
with `InvalidMoveError` and performs no rename wire call. -/
theorem c3_move_precondition (c : Client) (dirExists : String → Bool)
    (oldDn newDn : String) (h : c.renameResp oldDn newDn = none) :
    ((moveLdapEntry (some c) dirExists oldDn newDn).fst = Except.ok ()
       ↔ (dirExists oldDn = true ∧ dirExists newDn = false))
    ∧ (¬(dirExists oldDn = true ∧ dirExists newDn = false) →
       moveLdapEntry (some c) dirExists oldDn newDn
         = (Except.error Err.invalidMove, [])) := by
  cases h1 : dirExists oldDn <;> cases h2 : dirExists newDn <;>
    simp [moveLdapEntry, h1, h2, h]

/-- C3 witness: a directory in which only the source DN exists, a client
whose rename succeeds. -/
theorem c3_move_precondition_witness :
    okClient.renameResp "uid=old" "uid=new" = none
    ∧ (((moveLdapEntry (some okClient) (fun s => s == "uid=old")
          "uid=old" "uid=new").fst = Except.ok ()
        ↔ ((fun s => s == "uid=old") "uid=old" = true
            ∧ (fun s => s == "uid=old") "uid=new" = false))
      ∧ (¬((fun s => s == "uid=old") "uid=old" = true
            ∧ (fun s => s == "uid=old") "uid=new" = false) →
         moveLdapEntry (some okClient) (fun s => s == "uid=old") "uid=old" "uid=new"
           = (Except.error Err.invalidMove, []))) :=
  ⟨rfl, c3_move_precondition okClient (fun s => s == "uid=old") "uid=old" "uid=new" rfl⟩

end Ldap

namespace Ldap

/-- C4 counterexample: `setLdapAttribute` against a client whose directory is
empty (every search reports zero entries, so no DN satisfies the operation's
precondition) still issues its wire modify, and its wire-call trace contains
no search at all — the existence state was never observed before mutating. -/
theorem c4_counterexample :
    (setLdapAttribute (some okClient) "uid=absent" "mail" ["a"]).snd
      = [WireCall.modify "uid=absent" (getChange "replace" "mail" ["a"])]
    ∧ ((setLdapAttribute (some okClient) "uid=absent" "mail" ["a"]).snd).filter
        isSearchCall = []
    ∧ (setLdapAttribute (some okClient) "uid=absent" "mail" ["a"]).snd ≠ [] := by
  exact ⟨rfl, rfl, by decide⟩

/-- C4 (amended): none of the mutation operations present in src observes the
existence state of its DN before mutating: for every client and arguments,
each of `setLdapAttribute`, `addLdapAttribute`, `removeLdapAttribute`,
`addLdapEntry`, `removeLdapEntry` and `modifyLdapDn` issues exactly its one
wire mutation, with no search query anywhere in its trace. -/
theorem c4_no_existence_precheck (c : Client) (dn attributeName : String)
    (attributeValues : List String) (entry : EntryRecord)
    (oldDn newRdn newParent : String) :
    (setLdapAttribute (some c) dn attributeName attributeValues).snd
        = [WireCall.modify dn (getChange "replace" attributeName attributeValues)]
    ∧ (addLdapAttribute (some c) dn attributeName attributeValues).snd
        = [WireCall.modify dn (getChange "add" attributeName attributeValues)]
    ∧ (removeLdapAttribute (some c) dn attributeName).snd
        = [WireCall.modify dn (getChange "delete" attributeName [])]
    ∧ (addLdapEntry (some c) dn entry).snd = [WireCall.add dn entry]
    ∧ (removeLdapEntry (some c) dn).snd = [WireCall.del dn]
    ∧ (modifyLdapDn (some c) oldDn newRdn newParent).snd
        = [WireCall.modifyDN oldDn newRdn newParent]
    ∧ ((setLdapAttribute (some c) dn attributeName attributeValues).snd).filter
        isSearchCall = []
    ∧ ((addLdapEntry (some c) dn entry).snd).filter isSearchCall = []
    ∧ ((removeLdapEntry (some c) dn).snd).filter isSearchCall = [] := by
  refine ⟨changeLdapAttribute_snd c dn _, changeLdapAttribute_snd c dn _,
    changeLdapAttribute_snd c dn _, addLdapEntry_snd c dn entry,
    removeLdapEntry_snd c dn, modifyLdapDn_snd c oldDn newRdn newParent, ?_, ?_, ?_⟩
  · rw [show (setLdapAttribute (some c) dn attributeName attributeValues).snd
        = [WireCall.modify dn (getChange "replace" attributeName attributeValues)]
      from changeLdapAttribute_snd c dn _]
    rfl
  · rw [addLdapEntry_snd c dn entry]; rfl
  · rw [removeLdapEntry_snd c dn]; rfl

/-- C5 counterexample: a search whose server reports the noSuchObject
condition rejects with that raw server error instead of resolving to an empty
sequence. -/
theorem c5_counterexample :
    (queryLdap (some (errClient (Err.serverError 32 "noSuchObject")))
        "dc=gone,dc=example" "(objectClass=*)").fst
      = some (Except.error (Err.serverError 32 "noSuchObject"))
    ∧ (queryLdap (some (errClient (Err.serverError 32 "noSuchObject")))
        "dc=gone,dc=example" "(objectClass=*)").fst
      ≠ some (Except.ok []) := by
  exact ⟨rfl, by decide⟩

/-- C5 (amended): every server-reported search error — a noSuchObject
condition included — propagates as a rejection carrying the raw underlying
error: no normalization of noSuchObject to an empty result and no wrapping
in a distinct search-error type takes place. -/
theorem c5_search_error_is_raw (c : Client) (base fil : String)
    (entries : List (List Attr)) (e : Err)
    (h : c.searchResp base fil "sub"
        = SearchResponse.events (entries.map SearchEvent.entry ++ [SearchEvent.errored e])) :
    (queryLdap (some c) base fil).fst = some (Except.error e) := by
  simp [queryLdap, h, collectEvents_entries, collectEvents]

/-- C5 witness: a server that delivers one entry and then the noSuchObject
error signal. -/
theorem c5_search_error_is_raw_witness :
    (errClient (Err.serverError 32 "noSuchObject")).searchResp "dc=b" "(cn=x)" "sub"
      = SearchResponse.events
          (([] : List (List Attr)).map SearchEvent.entry
            ++ [SearchEvent.errored (Err.serverError 32 "noSuchObject")])
    ∧ (queryLdap (some (errClient (Err.serverError 32 "noSuchObject"))) "dc=b" "(cn=x)").fst
      = some (Except.error (Err.serverError 32 "noSuchObject")) :=
  ⟨rfl, c5_search_error_is_raw (errClient (Err.serverError 32 "noSuchObject"))
      "dc=b" "(cn=x)" [] (Err.serverError 32 "noSuchObject") rfl⟩

end Ldap

namespace Ldap

/-- C6 counterexample: when the server reports an error for the wire modify
of `setLdapAttribute`, the operation rejects with exactly that raw server
error object — the rejection carries the underlying error itself rather than
a distinct mutation-error wrapper holding it as a diagnostic, contradicting
the claim that a `MutationError` (not the raw transport error) surfaces. -/
theorem c6_counterexample :
    (setLdapAttribute (some (errClient (Err.serverError 19 "constraintViolation")))
        "uid=u" "mail" ["v"]).fst
      = Except.error (Err.serverError 19 "constraintViolation")
    ∧ (setLdapAttribute (some (errClient (Err.serverError 19 "constraintViolation")))
        "uid=u" "mail" ["v"]).fst
      ≠ Except.error (Err.wrapped (Err.serverError 19 "constraintViolation")) := by
  exact ⟨rfl, by decide⟩

/-- C6 (amended): each mutating function propagates a server-reported error
by rejecting with that raw error itself, unwrapped, and its wire call is
issued exactly once — no retry is attempted. -/
theorem c6_raw_error_no_retry (c : Client) (dn oldDn newRdn newParent : String)
    (ch : Change) (entry : EntryRecord) (e1 e2 e3 e4 : Err)
    (h1 : c.modifyResp dn ch = some e1)
    (h2 : c.addResp dn entry = some e2)
    (h3 : c.delResp dn = some e3)
    (h4 : c.modifyDNResp oldDn newRdn newParent = some e4) :
    changeLdapAttribute (some c) dn ch = (Except.error e1, [WireCall.modify dn ch])
    ∧ addLdapEntry (some c) dn entry = (Except.error e2, [WireCall.add dn entry])
    ∧ removeLdapEntry (some c) dn = (Except.error e3, [WireCall.del dn])
    ∧ modifyLdapDn (some c) oldDn newRdn newParent
        = (Except.error e4, [WireCall.modifyDN oldDn newRdn newParent]) := by
  refine ⟨?_, ?_, ?_, ?_⟩ <;>
    simp [changeLdapAttribute, addLdapEntry, removeLdapEntry, modifyLdapDn,
      h1, h2, h3, h4]

/-- C6 witness over a concrete failing server. -/
theorem c6_raw_error_no_retry_witness :
    (errClient (Err.serverError 19 "diag")).modifyResp "uid=u"
        (getChange "replace" "mail" ["v"]) = some (Err.serverError 19 "diag")
    ∧ (errClient (Err.serverError 19 "diag")).addResp "uid=u" []
        = some (Err.serverError 19 "diag")
    ∧ (errClient (Err.serverError 19 "diag")).delResp "uid=u"
        = some (Err.serverError 19 "diag")
    ∧ (errClient (Err.serverError 19 "diag")).modifyDNResp "uid=u" "uid=v" "dc=p"
        = some (Err.serverError 19 "diag")
    ∧ (changeLdapAttribute (some (errClient (Err.serverError 19 "diag"))) "uid=u"
          (getChange "replace" "mail" ["v"])
        = (Except.error (Err.serverError 19 "diag"),
           [WireCall.modify "uid=u" (getChange "replace" "mail" ["v"])])
      ∧ addLdapEntry (some (errClient (Err.serverError 19 "diag"))) "uid=u" []
        = (Except.error (Err.serverError 19 "diag"), [WireCall.add "uid=u" []])
      ∧ removeLdapEntry (some (errClient (Err.serverError 19 "diag"))) "uid=u"
        = (Except.error (Err.serverError 19 "diag"), [WireCall.del "uid=u"])
      ∧ modifyLdapDn (some (errClient (Err.serverError 19 "diag"))) "uid=u" "uid=v" "dc=p"
        = (Except.error (Err.serverError 19 "diag"),
           [WireCall.modifyDN "uid=u" "uid=v" "dc=p"])) :=
  ⟨rfl, rfl, rfl, rfl,
    c6_raw_error_no_retry (errClient (Err.serverError 19 "diag")) "uid=u" "uid=u"
      "uid=v" "dc=p" (getChange "replace" "mail" ["v"]) []
      (Err.serverError 19 "diag") (Err.serverError 19 "diag")
      (Err.serverError 19 "diag") (Err.serverError 19 "diag") rfl rfl rfl rfl⟩

/-- C7 counterexample: `addLdapEntry` called with a null client does not fail
with the fail-fast guard error the claim requires for every operation: it has
no guard, and the rejection is the TypeError from invoking a method on null
instead. -/
theorem c7_counterexample :
    (addLdapEntry none "uid=x" []).fst = Except.error nullClientCrash
    ∧ (addLdapEntry none "uid=x" []).fst ≠ Except.error Err.clientNotDefined := by
  exact ⟨rfl, by decide⟩

/-- C7 (amended): only `queryLdap` and `changeLdapAttribute` — and through
the latter `setLdapAttribute`, `addLdapAttribute`, `removeLdapAttribute` —
fail fast on a null client with the guard error from
`new Error('client is not defined')`; `addLdapEntry`, `removeLdapEntry` and
`modifyLdapDn` have no guard and instead reject with the TypeError raised by
dereferencing null.  In every case no wire call is issued. -/
theorem c7_null_client_guards (base fil dn attributeName : String)
    (attributeValues : List String) (ch : Change) (entry : EntryRecord)
    (oldDn newRdn newParent : String) :
    queryLdap none base fil = (some (Except.error Err.clientNotDefined), [])
    ∧ changeLdapAttribute none dn ch = (Except.error Err.clientNotDefined, [])
    ∧ setLdapAttribute none dn attributeName attributeValues
        = (Except.error Err.clientNotDefined, [])
    ∧ addLdapAttribute none dn attributeName attributeValues
        = (Except.error Err.clientNotDefined, [])
    ∧ removeLdapAttribute none dn attributeName
        = (Except.error Err.clientNotDefined, [])
    ∧ addLdapEntry none dn entry = (Except.error nullClientCrash, [])
    ∧ removeLdapEntry none dn = (Except.error nullClientCrash, [])
    ∧ modifyLdapDn none oldDn newRdn newParent
        = (Except.error nullClientCrash, []) := by
  exact ⟨rfl, rfl, rfl, rfl, rfl, rfl, rfl, rfl⟩

/-- C8: `queryLdap` resolves to the ordered sequence of exactly the entries
the server delivered, in delivery order, exactly when the server signals
end-of-results; a stream that never signals end-of-results leaves the search
unresolved (nothing is returned early or lazily). -/
theorem c8_search_collects_in_order (c c2 : Client) (base fil : String)
    (entries entries2 : List (List Attr))
    (hEnd : c.searchResp base fil "sub"
        = SearchResponse.events (entries.map SearchEvent.entry ++ [SearchEvent.ended]))
    (hNoEnd : c2.searchResp base fil "sub"
        = SearchResponse.events (entries2.map SearchEvent.entry)) :
    (queryLdap (some c) base fil).fst = some (Except.ok entries)
    ∧ (queryLdap (some c2) base fil).fst = none := by
  constructor
  · simp [queryLdap, hEnd, collectEvents_entries, collectEvents]
  · have h := collectEvents_entries entries2 [] []
    rw [List.append_nil] at h
    simp [queryLdap, hNoEnd, h, collectEvents]

/-- C8 witness: two delivered entries followed by the end signal resolve to
exactly those two entries in order; the same two entries with no end signal
leave the search pending. -/
theorem c8_search_collects_in_order_witness :
    (Client.mk (fun _ _ _ => SearchResponse.events
        [SearchEvent.entry [Attr.mk "cn" ["a"]], SearchEvent.entry [Attr.mk "cn" ["b"]],
         SearchEvent.ended])
      (fun _ _ => none) (fun _ _ => none) (fun _ => none) (fun _ _ _ => none)
      (fun _ _ => none)).searchResp "dc=b" "(cn=*)" "sub"
      = SearchResponse.events
          (([[Attr.mk "cn" ["a"]], [Attr.mk "cn" ["b"]]].map SearchEvent.entry)
            ++ [SearchEvent.ended])
    ∧ (Client.mk (fun _ _ _ => SearchResponse.events
        [SearchEvent.entry [Attr.mk "cn" ["a"]], SearchEvent.entry [Attr.mk "cn" ["b"]]])
      (fun _ _ => none) (fun _ _ => none) (fun _ => none) (fun _ _ _ => none)
      (fun _ _ => none)).searchResp "dc=b" "(cn=*)" "sub"
      = SearchResponse.events
          ([[Attr.mk "cn" ["a"]], [Attr.mk "cn" ["b"]]].map SearchEvent.entry)
    ∧ ((queryLdap (some (Client.mk (fun _ _ _ => SearchResponse.events
          [SearchEvent.entry [Attr.mk "cn" ["a"]], SearchEvent.entry [Attr.mk "cn" ["b"]],
           SearchEvent.ended])
        (fun _ _ => none) (fun _ _ => none) (fun _ => none) (fun _ _ _ => none)
        (fun _ _ => none))) "dc=b" "(cn=*)").fst
        = some (Except.ok [[Attr.mk "cn" ["a"]], [Attr.mk "cn" ["b"]]])
      ∧ (queryLdap (some (Client.mk (fun _ _ _ => SearchResponse.events
          [SearchEvent.entry [Attr.mk "cn" ["a"]], SearchEvent.entry [Attr.mk "cn" ["b"]]])
        (fun _ _ => none) (fun _ _ => none) (fun _ => none) (fun _ _ _ => none)
        (fun _ _ => none))) "dc=b" "(cn=*)").fst = none) :=
  ⟨rfl, rfl,
    c8_search_collects_in_order _ _ "dc=b" "(cn=*)"
      [[Attr.mk "cn" ["a"]], [Attr.mk "cn" ["b"]]]
      [[Attr.mk "cn" ["a"]], [Attr.mk "cn" ["b"]]] rfl rfl⟩

end Ldap

namespace Ldap

/-- C9: `setLdapAttribute` issues a change tagged `replace` with the supplied
values, whose server-side application overwrites all values of the named
attribute; `addLdapAttribute` issues a change tagged `add` whose application
appends the supplied values to those present; `removeLdapAttribute` issues a
change tagged `delete` carrying an empty value list (it accepts no values
argument), and a `delete` change removes the attribute entirely whatever
values it carries. -/
theorem c9_change_shapes (c : Client) (dn attributeName : String)
    (attributeValues anyVals oldVals : List String) (attrs : EntryRecord)
    (hprev : attrs.lookup attributeName = some oldVals) :
    (setLdapAttribute (some c) dn attributeName attributeValues).snd
        = [WireCall.modify dn (getChange "replace" attributeName attributeValues)]
    ∧ (applyChange attrs (getChange "replace" attributeName attributeValues)).lookup
        attributeName = some attributeValues
    ∧ (addLdapAttribute (some c) dn attributeName attributeValues).snd
        = [WireCall.modify dn (getChange "add" attributeName attributeValues)]
    ∧ (applyChange attrs (getChange "add" attributeName attributeValues)).lookup
        attributeName = some (oldVals ++ attributeValues)
    ∧ (removeLdapAttribute (some c) dn attributeName).snd
        = [WireCall.modify dn (getChange "delete" attributeName [])]
    ∧ (applyChange attrs (getChange "delete" attributeName anyVals)).lookup
        attributeName = none := by
  refine ⟨changeLdapAttribute_snd c dn _, ?_, changeLdapAttribute_snd c dn _, ?_,
    changeLdapAttribute_snd c dn _, ?_⟩
  · simpa [applyChange, getChange] using
      lookup_filter_ne_append attrs attributeName attributeValues
  · simpa [applyChange, getChange, hprev] using
      lookup_filter_ne_append attrs attributeName (oldVals ++ attributeValues)
  · simpa [applyChange, getChange] using lookup_filter_ne attrs attributeName

/-- C9 witness on a concrete entry holding one prior value for the
attribute. -/
theorem c9_change_shapes_witness :
    ([("mail", ["old"])] : EntryRecord).lookup "mail" = some ["old"]
    ∧ ((setLdapAttribute (some okClient) "uid=u" "mail" ["v1", "v2"]).snd
        = [WireCall.modify "uid=u" (getChange "replace" "mail" ["v1", "v2"])]
      ∧ (applyChange [("mail", ["old"])] (getChange "replace" "mail" ["v1", "v2"])).lookup
          "mail" = some ["v1", "v2"]
      ∧ (addLdapAttribute (some okClient) "uid=u" "mail" ["v1", "v2"]).snd
        = [WireCall.modify "uid=u" (getChange "add" "mail" ["v1", "v2"])]
      ∧ (applyChange [("mail", ["old"])] (getChange "add" "mail" ["v1", "v2"])).lookup
          "mail" = some (["old"] ++ ["v1", "v2"])
      ∧ (removeLdapAttribute (some okClient) "uid=u" "mail").snd
        = [WireCall.modify "uid=u" (getChange "delete" "mail" [])]
      ∧ (applyChange [("mail", ["old"])] (getChange "delete" "mail" ["ignored"])).lookup
          "mail" = none) :=
  ⟨rfl, c9_change_shapes okClient "uid=u" "mail" ["v1", "v2"] ["ignored"] ["old"]
      [("mail", ["old"])] rfl⟩

/-- C10: `openLdap` resolves with the client handle regardless of the outcome
of the bind — a rejected bind raises its wrapped error inside the
asynchronous bind callback (second component), and the promise returned by
`openLdap` (first component) is fulfilled with the client either way, never
rejected. -/
theorem c10_open_resolves_regardless (mkClient : String → Client)
    (url bind_dn password : String) (bindErr : Option Err) :
    (openLdap mkClient url bind_dn password bindErr).fst
        = Except.ok (mkClient url)
    ∧ (openLdap mkClient url bind_dn password bindErr).snd
        = bindErr.map Err.wrapped := by
  exact ⟨rfl, rfl⟩

end Ldap
